import Mathlib

/-!
Shallow embedding of the correlation broker in `src/rbx_studio_server.rs`
(roblox-studio-mcp-server).

The broker's shared state (`AppState`) owns a FIFO work queue of
`ToolArguments`, a correlation table `output_map` from `Uuid` to the sending
half of an unbounded mpsc channel carrying `Result<String>`, and a watch
channel (`trigger`/`waiter`) used as a wake signal for long-poll waiters.

Modelling choices, all driven by the source:
- `Uuid` is modelled as `Nat`; `Uuid::new_v4()` is nondeterministic, so each
  submission step takes the minted identifier as an explicit parameter.
- The domain payload enum `ToolArgumentValues` is carried opaquely by the
  broker (it never inspects `args`), so the whole development is parametric
  in a payload type `Args`; concrete instances use `String`.
- `HashMap<Uuid, Sender>` is an association list with at most one live entry
  per key (`mapInsert` replaces, as `HashMap::insert` does).
- An mpsc unbounded channel is a buffer of messages plus liveness flags for
  the two halves; `send` appends (and the source drops the sender handle at
  the end of the sending handler, so the flag is cleared there), `recv`
  consumes from the front, returns closed-without-value when the buffer is
  empty and the sender is gone, and blocks when the buffer is empty but the
  sender is still live. Channel identity is the index into `AppState.chans`.
- `watch::channel` is a version counter plus a receiver count;
  `watch::Sender::send` fails exactly when no receiver is live, and
  `AppState` itself permanently holds one receiver (`waiter`).
- Rust handlers mutate the shared `Arc<Mutex<AppState>>` before possibly
  returning `Err`, so handlers here return the updated state alongside an
  `Except` value rather than an `Except` of the state.
-/

deriving instance DecidableEq for Except

/-- `crate::error::Result<String>`: the message type carried by a response
channel. Errors are modelled as their display strings. -/
abbrev Res := Except String String

/-- `uuid::Uuid`, modelled as a natural number. -/
abbrev Uuid := Nat

/-- Index of a channel in `AppState.chans`, identifying one
`mpsc::unbounded_channel` pair. -/
abbrev ChanId := Nat

/-- `struct ToolArguments { args: ToolArgumentValues, id: Option<Uuid> }`.
The payload type is a parameter because the broker never inspects it. -/
structure ToolArguments (Args : Type) where
  args : Args
  id : Option Uuid
  deriving DecidableEq, Repr

/-- `struct RunCommandResponse { response: String, id: Uuid }`. -/
structure RunCommandResponse where
  response : String
  id : Uuid
  deriving DecidableEq, Repr

/-- One `mpsc::unbounded_channel::<Result<String>>()` pair: the buffer of
sent-but-unconsumed messages and liveness of the two halves. -/
structure Chan where
  buf : List Res
  sender_alive : Bool
  receiver_alive : Bool
  deriving DecidableEq, Repr

/-- A fresh channel, as created at the submission or proxy entry points. -/
def Chan.new : Chan := { buf := [], sender_alive := true, receiver_alive := true }

/-- `tokio::sync::watch::channel(())`: a version counter (bumped by every
`send`) plus the number of live receivers. -/
structure WatchChannel where
  version : Nat
  receivers : Nat
  deriving DecidableEq, Repr

/-- `watch::Sender::send(())`: fails exactly when every receiver has been
dropped, otherwise notifies by bumping the version. -/
def trigger_send (w : WatchChannel) : Except String WatchChannel :=
  if w.receivers = 0 then .error "Unable to trigger send"
  else .ok { w with version := w.version + 1 }

/-- Lookup in the correlation table (`HashMap::get`-like view of the
association list). -/
def mapLookup (k : Uuid) : List (Uuid × ChanId) → Option ChanId
  | [] => none
  | (k₀, v) :: rest => if k₀ = k then some v else mapLookup k rest

/-- Removal of every binding of a key (`HashMap::remove` / `remove_entry`
on a map that holds at most one binding per key). -/
def mapErase (k : Uuid) : List (Uuid × ChanId) → List (Uuid × ChanId)
  | [] => []
  | (k₀, v) :: rest => if k₀ = k then mapErase k rest else (k₀, v) :: mapErase k rest

/-- `HashMap::insert`: the new binding replaces any previous one. -/
def mapInsert (k : Uuid) (v : ChanId) (m : List (Uuid × ChanId)) : List (Uuid × ChanId) :=
  (k, v) :: mapErase k m

/-- `HashMap::remove`: the bound value together with the shrunken map, or
`none` when the key is absent. -/
def mapRemove (k : Uuid) (m : List (Uuid × ChanId)) : Option (ChanId × List (Uuid × ChanId)) :=
  match mapLookup k m with
  | none => none
  | some v => some (v, mapErase k m)

/-- `UnboundedSender::send` followed by the sender handle going out of scope
at the end of the sending handler (as in `response_handler`, `proxy_handler`
and `dud_proxy_loop`): appends the message when the receiver is live, fails
otherwise. -/
def chanSend (cid : ChanId) (msg : Res) (cs : List Chan) : Except String (List Chan) :=
  match cs[cid]? with
  | none => .error "no such channel"
  | some c =>
    if c.receiver_alive then
      .ok (cs.set cid { c with buf := c.buf ++ [msg], sender_alive := false })
    else .error "channel closed"

/-- `UnboundedReceiver::recv` when a message is buffered: consumes the front
message. `none` means no message is currently buffered (the call would
either block or report the channel closed, see `chanClosedEmpty`). -/
def chanRecv (cid : ChanId) (cs : List Chan) : Option (Res × List Chan) :=
  match cs[cid]? with
  | none => none
  | some c =>
    match c.buf with
    | [] => none
    | m :: rest => some (m, cs.set cid { c with buf := rest })

/-- `recv` returns `None` (closed without a value) exactly when the buffer is
empty and the sender has been dropped. -/
def chanClosedEmpty (cid : ChanId) (cs : List Chan) : Bool :=
  match cs[cid]? with
  | none => false
  | some c => c.buf.isEmpty && !c.sender_alive

/-- `struct AppState`: the work queue (front at the head of the list), the
correlation table, the channel store backing the table's senders, and the
wake-signal watch channel (the permanent `waiter` receiver is counted in
`trigger.receivers`). -/
structure AppState (Args : Type) where
  process_queue : List (ToolArguments Args)
  output_map : List (Uuid × ChanId)
  chans : List Chan
  trigger : WatchChannel
  deriving DecidableEq, Repr

/-- `AppState::new()`: empty queue and table; `watch::channel(())` starts
with exactly one receiver, the state's own `waiter` field. -/
def AppState.new {Args : Type} : AppState Args :=
  { process_queue := [], output_map := [], chans := [], trigger := { version := 0, receivers := 1 } }

/-- `ToolArguments::with_id`: stamps a freshly minted identifier onto the
payload (the mint itself, `Uuid::new_v4()`, is nondeterministic and passed
in as `freshId`). -/
def ToolArguments.with_id {Args : Type} (t : ToolArguments Args) (freshId : Uuid) :
    ToolArguments Args × Uuid :=
  ({ args := t.args, id := some freshId }, freshId)

/-- `ToolArguments::new(args)`: wraps the payload with no identifier, then
immediately stamps a fresh one. -/
def ToolArguments.new {Args : Type} (args : Args) (freshId : Uuid) :
    ToolArguments Args × Uuid :=
  ToolArguments.with_id { args := args, id := none } freshId

/-- `rmcp::model::CallToolResult` restricted to the two shapes the broker
produces: `success(vec![Content::text r])` and `error(vec![Content::text e])`. -/
structure CallToolResult where
  isError : Bool
  content : List String
  deriving DecidableEq, Repr

/-- `CallToolResult::success(vec![Content::text(r)])`. -/
def CallToolResult.success (r : String) : CallToolResult :=
  { isError := false, content := [r] }

/-- `CallToolResult::error(vec![Content::text(e)])`. -/
def CallToolResult.failure (e : String) : CallToolResult :=
  { isError := true, content := [e] }

/-- First half of `generic_tool_run` (lines 400-411): mint an identifier,
create a fresh channel, and under the lock push the command onto the queue
and register the sender in the table; then fire the wake signal. The state
mutation persists even when `trigger.send` fails (the handler then returns
the internal error), so the updated state is returned alongside the
`Except`; since `trigger_send` reads only the watch channel and the lock
block never touches it, the two steps commute and are written here as one
match. On success the minted identifier and the channel index are what the
rest of `generic_tool_run` holds on to. -/
def generic_tool_run_submit {Args : Type} (s : AppState Args) (args : Args) (freshId : Uuid) :
    AppState Args × Except String (Uuid × ChanId) :=
  match trigger_send s.trigger with
  | .error e =>
    ({ s with
        process_queue := s.process_queue ++ [(ToolArguments.new args freshId).1],
        output_map := mapInsert freshId s.chans.length s.output_map,
        chans := s.chans ++ [Chan.new] }, .error e)
  | .ok w =>
    ({ s with
        process_queue := s.process_queue ++ [(ToolArguments.new args freshId).1],
        output_map := mapInsert freshId s.chans.length s.output_map,
        chans := s.chans ++ [Chan.new],
        trigger := w }, .ok (freshId, s.chans.length))

/-- Second half of `generic_tool_run` (lines 412-425): await the response
channel. `none` means the call is still blocked (no message yet, sender
live). A buffered message is consumed, the table entry is released
(`remove_entry`), and the message is wrapped as a success or error tool
result. A closed channel with no message yields the
"Couldn't receive response" internal error before the cleanup block runs. -/
def generic_tool_run_resume {Args : Type} (s : AppState Args) (id : Uuid) (cid : ChanId) :
    Option (AppState Args × Except String CallToolResult) :=
  match chanRecv cid s.chans with
  | some (m, cs) =>
    some ({ s with chans := cs, output_map := mapErase id s.output_map },
      .ok (match m with
        | .ok r => CallToolResult.success r
        | .error e => CallToolResult.failure e))
  | none =>
    if chanClosedEmpty cid s.chans then
      some (s, .error "Couldn't receive response")
    else none

/-- One pass of `request_handler`'s polling loop body under the lock
(lines 431-437): pop the front of the queue if non-empty; otherwise report
nothing (the handler then clones the waiter and suspends on it). -/
def request_handler_poll {Args : Type} (s : AppState Args) :
    AppState Args × Option (ToolArguments Args) :=
  match s.process_queue with
  | [] => (s, none)
  | t :: rest => ({ s with process_queue := rest }, some t)

/-- Outcome of one `request_handler` call: either a command serialized as the
JSON body, or the timeout arm `(StatusCode::LOCKED, String::new())` carrying
the numeric status and the empty body. -/
inductive FetchOutcome (Args : Type) where
  | json (t : ToolArguments Args)
  | noWork (status : Nat) (body : String)
  deriving DecidableEq, Repr

/-- `request_handler` (lines 428-446), run over the sequence of states it
observes under the lock: the state at its first poll and at each wake of the
waiter that fits inside the 15-second bound. An exhausted list means the
bound elapsed with the queue never non-empty, which is the `Ok` timeout arm
`(StatusCode::LOCKED, String::new())` — status 423, empty body, not an
error. -/
def request_handler_run {Args : Type} (states : List (AppState Args)) :
    Except String (FetchOutcome Args) :=
  match states with
  | [] => .ok (.noWork 423 "")
  | s :: rest =>
    match s.process_queue with
    | t :: _ => .ok (.json t)
    | [] => request_handler_run rest

/-- `response_handler` (lines 448-459): remove the table entry for the
posted identifier — failing with "Unknown ID" and touching nothing when it
is absent — then send `Ok(payload.response)` into the recovered sender. As
in the source, a removal that succeeds persists even if the subsequent send
fails, so the updated state accompanies the `Except`. -/
def response_handler {Args : Type} (s : AppState Args) (payload : RunCommandResponse) :
    AppState Args × Except String Unit :=
  match mapRemove payload.id s.output_map with
  | none => (s, .error "Unknown ID")
  | some (cid, m) =>
    match chanSend cid (.ok payload.response) s.chans with
    | .error e => ({ s with output_map := m }, .error e)
    | .ok cs => ({ s with output_map := m, chans := cs }, .ok ())

/-- First half of `proxy_handler` (lines 461-472): reject a forwarded
command with no identifier before touching any state; otherwise create a
fresh channel and, under the lock, push the command (identifier untouched)
and register the sender under the caller-supplied identifier. Note: unlike
`generic_tool_run`, no wake signal is fired. -/
def proxy_handler_enqueue {Args : Type} (s : AppState Args) (command : ToolArguments Args) :
    Except String (AppState Args × Uuid × ChanId) :=
  match command.id with
  | none => .error "Got proxy command with no id"
  | some id =>
    .ok ({ s with
            process_queue := s.process_queue ++ [command],
            output_map := mapInsert id s.chans.length s.output_map,
            chans := s.chans ++ [Chan.new] }, id, s.chans.length)

/-- Second half of `proxy_handler` (lines 473-480): await the response
channel (`none` = still blocked). A closed channel with no message is the
"Couldn't receive response" error; a buffered `Err` message propagates as an
error through the second `?` before the cleanup block runs; a buffered `Ok`
message releases the table entry and is echoed back as a
`RunCommandResponse`. -/
def proxy_handler_resume {Args : Type} (s : AppState Args) (id : Uuid) (cid : ChanId) :
    Option (AppState Args × Except String RunCommandResponse) :=
  match chanRecv cid s.chans with
  | some (m, cs) =>
    match m with
    | .error e => some ({ s with chans := cs }, .error e)
    | .ok response =>
      some ({ s with chans := cs, output_map := mapErase id s.output_map },
        .ok { response := response, id := id })
  | none =>
    if chanClosedEmpty cid s.chans then
      some (s, .error "Couldn't receive response")
    else none

/-- Outcome of one iteration of `dud_proxy_loop`'s body (lines 487-514). -/
inductive DudOutcome (Args : Type) where
  | idle (s : AppState Args)
  | sent (s : AppState Args)
  | dropped (s : AppState Args)
  | panicked
  deriving DecidableEq, Repr

/-- One iteration of `dud_proxy_loop` (lines 487-514). `net` is the
nondeterministic outcome of the outbound POST: `none` for a transport
failure (`Err(_)` from `send()`), `some r` for an HTTP response whose JSON
decode, mapped to the relayed `Result<String>`, is `r` (an `Err` decode
becomes a failure-flavored message). With an empty queue the loop awaits
the waiter (`idle`). After a successful POST the loop unwraps the command's
identifier and unwraps the table removal — both panic on `None` — and then
unwraps the channel send. On transport failure the popped command is merely
logged and dropped; the table entry stays. -/
def dud_proxy_iter {Args : Type} (s : AppState Args) (net : Option Res) : DudOutcome Args :=
  match s.process_queue with
  | [] => .idle s
  | entry :: rest =>
    match net with
    | none => .dropped { s with process_queue := rest }
    | some res =>
      match entry.id with
      | none => .panicked
      | some id =>
        match mapRemove id s.output_map with
        | none => .panicked
        | some (cid, m) =>
          match chanSend cid res s.chans with
          | .error _ => .panicked
          | .ok cs => .sent { s with process_queue := rest, output_map := m, chans := cs }

/-- The `forget` cleanup step of the spec's state contract: releasing a
table entry without resolving it, as `state.output_map.remove_entry(&id)`
does in `generic_tool_run` (lines 416-419) and `proxy_handler`
(lines 474-477). -/
def forget {Args : Type} (s : AppState Args) (id : Uuid) : AppState Args :=
  { s with output_map := mapErase id s.output_map }

/-- One enqueue, performed through either of the two entry points that push
onto the work queue: the submission path (with a freshly minted identifier)
or the relay-receiving proxy endpoint (with the forwarded command's own
identifier). -/
inductive EnqueueVia (Args : Type) where
  | submit (args : Args) (freshId : Uuid)
  | proxy (command : ToolArguments Args)

/-- Applies one enqueue to the state, reporting the command that was pushed;
`none` when nothing was pushed (a proxy command with no identifier is
rejected). A submission's push persists even if the subsequent wake-signal
send fails, mirroring the source's ordering. -/
def applyEnqueue {Args : Type} (s : AppState Args) :
    EnqueueVia Args → Option (AppState Args × ToolArguments Args)
  | .submit args freshId =>
    some ((generic_tool_run_submit s args freshId).1, { args := args, id := some freshId })
  | .proxy command =>
    match proxy_handler_enqueue s command with
    | .error _ => none
    | .ok (s₁, _, _) => some (s₁, command)

/-- States of one broker instance reachable from `AppState::new()` by the
state-mutating steps of its handlers and of the relay loop. -/
inductive Reach {Args : Type} : AppState Args → Prop where
  | init : Reach AppState.new
  | submit (s : AppState Args) (args : Args) (freshId : Uuid) :
      Reach s → Reach (generic_tool_run_submit s args freshId).1
  | poll (s : AppState Args) :
      Reach s → Reach (request_handler_poll s).1
  | deliver (s : AppState Args) (p : RunCommandResponse) :
      Reach s → Reach (response_handler s p).1
  | resume (s s₁ : AppState Args) (id : Uuid) (cid : ChanId)
      (r : Except String CallToolResult) :
      Reach s → generic_tool_run_resume s id cid = some (s₁, r) → Reach s₁
  | proxyEnq (s s₁ : AppState Args) (c : ToolArguments Args) (id : Uuid) (cid : ChanId) :
      Reach s → proxy_handler_enqueue s c = .ok (s₁, id, cid) → Reach s₁
  | proxyRes (s s₁ : AppState Args) (id : Uuid) (cid : ChanId)
      (r : Except String RunCommandResponse) :
      Reach s → proxy_handler_resume s id cid = some (s₁, r) → Reach s₁
  | dudSent (s s₁ : AppState Args) (net : Option Res) :
      Reach s → dud_proxy_iter s net = .sent s₁ → Reach s₁
  | dudDropped (s s₁ : AppState Args) (net : Option Res) :
      Reach s → dud_proxy_iter s net = .dropped s₁ → Reach s₁
  | forgetStep (s : AppState Args) (id : Uuid) :
      Reach s → Reach (forget s id)

/-! ### Helper lemmas -/

theorem mapErase_of_lookup_none {k : Uuid} : ∀ {m : List (Uuid × ChanId)},
    mapLookup k m = none → mapErase k m = m
  | [], _ => rfl
  | (k₀, v) :: rest, h => by
    by_cases hk : k₀ = k
    · simp [mapLookup, hk] at h
    · simp only [mapErase, if_neg hk]
      simp only [mapLookup, if_neg hk] at h
      rw [mapErase_of_lookup_none h]

theorem mapLookup_erase_self (k : Uuid) : ∀ (m : List (Uuid × ChanId)),
    mapLookup k (mapErase k m) = none
  | [] => rfl
  | (k₀, v) :: rest => by
    by_cases hk : k₀ = k
    · simp only [mapErase, if_pos hk]
      exact mapLookup_erase_self k rest
    · simp only [mapErase, if_neg hk, mapLookup, if_neg hk]
      exact mapLookup_erase_self k rest

theorem chanSend_error_shape {cid : ChanId} {msg : Res} {cs : List Chan} {e : String}
    (h : chanSend cid msg cs = .error e) :
    e = "no such channel" ∨ e = "channel closed" := by
  unfold chanSend at h
  split at h
  · exact Or.inl (Except.error.inj h).symm
  · split at h
    · cases h
    · exact Or.inr (Except.error.inj h).symm

theorem response_handler_of_lookup_none {Args : Type} {s : AppState Args}
    {p : RunCommandResponse} (h : mapLookup p.id s.output_map = none) :
    response_handler s p = (s, .error "Unknown ID") := by
  unfold response_handler mapRemove
  rw [h]

theorem response_handler_queue {Args : Type} (s : AppState Args) (p : RunCommandResponse) :
    (response_handler s p).1.process_queue = s.process_queue := by
  unfold response_handler
  split
  · rfl
  · split <;> rfl

theorem response_handler_trigger {Args : Type} (s : AppState Args) (p : RunCommandResponse) :
    (response_handler s p).1.trigger = s.trigger := by
  unfold response_handler
  split
  · rfl
  · split <;> rfl

theorem generic_tool_run_submit_queue {Args : Type} (s : AppState Args) (a : Args) (f : Uuid) :
    (generic_tool_run_submit s a f).1.process_queue =
      s.process_queue ++ [{ args := a, id := some f }] := by
  unfold generic_tool_run_submit
  split <;> rfl

theorem generic_tool_run_submit_trigger_receivers {Args : Type} (s : AppState Args)
    (a : Args) (f : Uuid) :
    (generic_tool_run_submit s a f).1.trigger.receivers = s.trigger.receivers := by
  unfold generic_tool_run_submit
  split
  · rfl
  case _ w heq =>
    unfold trigger_send at heq
    split at heq
    · cases heq
    · rw [← Except.ok.inj heq]

theorem generic_tool_run_resume_eq_some {Args : Type} {s s₁ : AppState Args} {id : Uuid}
    {cid : ChanId} {r : Except String CallToolResult}
    (h : generic_tool_run_resume s id cid = some (s₁, r)) :
    s₁.process_queue = s.process_queue ∧ s₁.trigger = s.trigger := by
  unfold generic_tool_run_resume at h
  split at h
  · obtain ⟨rfl, -⟩ := Prod.mk.inj (Option.some.inj h)
    exact ⟨rfl, rfl⟩
  · split at h
    · obtain ⟨rfl, -⟩ := Prod.mk.inj (Option.some.inj h)
      exact ⟨rfl, rfl⟩
    · cases h

theorem proxy_handler_enqueue_eq_ok {Args : Type} {s s₁ : AppState Args}
    {c : ToolArguments Args} {id : Uuid} {cid : ChanId}
    (h : proxy_handler_enqueue s c = .ok (s₁, id, cid)) :
    c.id = some id ∧ s₁.process_queue = s.process_queue ++ [c] ∧ s₁.trigger = s.trigger := by
  unfold proxy_handler_enqueue at h
  split at h
  · cases h
  case _ i hid =>
    obtain ⟨h₁, h₂⟩ := Prod.mk.inj (Except.ok.inj h)
    obtain ⟨h₃, -⟩ := Prod.mk.inj h₂
    subst h₃
    exact ⟨hid, by rw [← h₁], by rw [← h₁]⟩

theorem proxy_handler_resume_eq_some {Args : Type} {s s₁ : AppState Args} {id : Uuid}
    {cid : ChanId} {r : Except String RunCommandResponse}
    (h : proxy_handler_resume s id cid = some (s₁, r)) :
    s₁.process_queue = s.process_queue ∧ s₁.trigger = s.trigger := by
  unfold proxy_handler_resume at h
  split at h
  case _ m cs hr =>
    cases m with
    | error e =>
      simp only at h
      obtain ⟨rfl, -⟩ := Prod.mk.inj (Option.some.inj h)
      exact ⟨rfl, rfl⟩
    | ok resp =>
      simp only at h
      obtain ⟨rfl, -⟩ := Prod.mk.inj (Option.some.inj h)
      exact ⟨rfl, rfl⟩
  · split at h
    · obtain ⟨rfl, -⟩ := Prod.mk.inj (Option.some.inj h)
      exact ⟨rfl, rfl⟩
    · cases h

theorem dud_proxy_iter_sent {Args : Type} {s s₁ : AppState Args} {net : Option Res}
    (h : dud_proxy_iter s net = .sent s₁) :
    (∃ e, s.process_queue = e :: s₁.process_queue) ∧ s₁.trigger = s.trigger := by
  unfold dud_proxy_iter at h
  split at h
  · cases h
  case _ entry rest hq =>
    split at h
    · cases h
    · split at h
      · cases h
      · split at h
        · cases h
        · split at h
          · cases h
          · have := DudOutcome.sent.inj h
            exact ⟨⟨entry, by rw [← this, hq]⟩, by rw [← this]⟩

theorem dud_proxy_iter_dropped {Args : Type} {s s₁ : AppState Args} {net : Option Res}
    (h : dud_proxy_iter s net = .dropped s₁) :
    (∃ e, s.process_queue = e :: s₁.process_queue) ∧ s₁.trigger = s.trigger := by
  unfold dud_proxy_iter at h
  split at h
  · cases h
  case _ entry rest hq =>
    split at h
    · have := DudOutcome.dropped.inj h
      exact ⟨⟨entry, by rw [← this, hq]⟩, by rw [← this]⟩
    · split at h
      · cases h
      · split at h
        · cases h
        · split at h
          · cases h
          · cases h

theorem request_handler_poll_trigger {Args : Type} (s : AppState Args) :
    (request_handler_poll s).1.trigger = s.trigger := by
  unfold request_handler_poll
  split <;> rfl

theorem request_handler_poll_queue_mem {Args : Type} {s : AppState Args}
    {c : ToolArguments Args} (h : c ∈ (request_handler_poll s).1.process_queue) :
    c ∈ s.process_queue := by
  unfold request_handler_poll at h
  split at h
  · exact h
  case _ hd rest hq => rw [hq]; exact List.mem_cons_of_mem hd h

theorem request_handler_poll_succeeds {Args : Type} {t u : AppState Args}
    {c : ToolArguments Args} (h : request_handler_poll t = (u, some c)) :
    t.process_queue = c :: u.process_queue := by
  unfold request_handler_poll at h
  split at h
  · obtain ⟨-, h₂⟩ := Prod.mk.inj h
    cases h₂
  case _ hd rest hq =>
    obtain ⟨h₁, h₂⟩ := Prod.mk.inj h
    have hc := Option.some.inj h₂
    subst hc
    rw [hq, ← h₁]

theorem request_handler_poll_empty {Args : Type} {t u : AppState Args}
    (h : request_handler_poll t = (u, none)) :
    u = t ∧ t.process_queue = [] := by
  unfold request_handler_poll at h
  split at h
  case _ hq => exact ⟨(Prod.mk.inj h).1.symm, hq⟩
  case _ hd rest hq =>
    obtain ⟨-, h₂⟩ := Prod.mk.inj h
    cases h₂

theorem applyEnqueue_eq_some {Args : Type} {s s₁ : AppState Args} {e : EnqueueVia Args}
    {c : ToolArguments Args} (h : applyEnqueue s e = some (s₁, c)) :
    s₁.process_queue = s.process_queue ++ [c] := by
  cases e with
  | submit a f =>
    simp only [applyEnqueue] at h
    obtain ⟨h₁, h₂⟩ := Prod.mk.inj (Option.some.inj h)
    rw [← h₁, generic_tool_run_submit_queue, h₂]
  | proxy cmd =>
    simp only [applyEnqueue] at h
    split at h
    · cases h
    case _ v heq =>
      obtain ⟨h₁, h₂⟩ := Prod.mk.inj (Option.some.inj h)
      subst h₂
      rw [← h₁]
      exact (proxy_handler_enqueue_eq_ok heq).2.1

/-! ### Claim theorems -/

/-- C1: End-to-end correctness. Starting from a fresh broker state, submitting
a payload `P` (identifier `X` minted at submission) makes the next fetch
return the command whose `args` equal `P` and whose `id` is `X`; delivering
`{id := X, response := R}` then makes the original, still-suspended
submission call return the success tool result carrying `R`. -/
theorem broker_end_to_end {Args : Type} (P : Args) (X : Uuid) (R : String) :
    ∃ (s₁ s₂ s₃ s₄ : AppState Args) (cmd : ToolArguments Args),
      generic_tool_run_submit (AppState.new : AppState Args) P X = (s₁, .ok (X, 0)) ∧
      request_handler_poll s₁ = (s₂, some cmd) ∧
      cmd.args = P ∧ cmd.id = some X ∧
      response_handler s₂ { response := R, id := X } = (s₃, .ok ()) ∧
      generic_tool_run_resume s₃ X 0 =
        some (s₄, .ok (CallToolResult.success R)) := by
  refine ⟨⟨[⟨P, some X⟩], [(X, 0)], [Chan.new], ⟨1, 1⟩⟩,
          ⟨[], [(X, 0)], [Chan.new], ⟨1, 1⟩⟩,
          ⟨[], [], [⟨[.ok R], false, true⟩], ⟨1, 1⟩⟩,
          ⟨[], [], [⟨[], false, true⟩], ⟨1, 1⟩⟩,
          ⟨P, some X⟩, ?_, rfl, rfl, rfl, ?_, ?_⟩
  · simp [generic_tool_run_submit, trigger_send, AppState.new, ToolArguments.new,
      ToolArguments.with_id, mapInsert, mapErase, Chan.new]
  · simp [response_handler, mapRemove, mapLookup, mapErase, chanSend, Chan.new]
  · simp [generic_tool_run_resume, chanRecv, mapErase, CallToolResult.success]

/-- C5: Long-poll timeout outcome. If at its first attempt and at every wake
within the 15-second bound the queue is empty, `request_handler` returns —
as a non-error (`Ok`) response, exactly one per call — the distinguished
"no work" outcome: HTTP status 423 (Locked) with an empty body. -/
theorem fetch_timeout_no_work {Args : Type} (states : List (AppState Args))
    (h : ∀ s ∈ states, s.process_queue = []) :
    request_handler_run states = .ok (FetchOutcome.noWork 423 "") := by
  induction states with
  | nil => rfl
  | cons s rest ih =>
    have hs := h s (List.mem_cons_self s rest)
    unfold request_handler_run
    rw [hs]
    exact ih fun t ht => h t (List.mem_cons_of_mem s ht)

/-- Witness for C5 at a concrete run: two polling attempts on a fresh
(empty-queue) broker end in the 423/empty outcome. -/
theorem fetch_timeout_no_work_witness :
    request_handler_run ([AppState.new, AppState.new] : List (AppState String)) =
      .ok (FetchOutcome.noWork 423 "") :=
  fetch_timeout_no_work [AppState.new, AppState.new] (by
    intro s hs
    rcases List.mem_cons.mp hs with rfl | hs
    · rfl
    · rcases List.mem_cons.mp hs with rfl | hs
      · rfl
      · cases hs)

/-- C4: The Result Delivery Endpoint fails with the "Unknown ID" client
error exactly when no correlation-table entry exists for the posted
identifier, and on that failure the broker state is unchanged. -/
theorem deliver_unknown_id_iff {Args : Type} (s : AppState Args) (p : RunCommandResponse) :
    ((response_handler s p).2 = .error "Unknown ID" ↔
      mapLookup p.id s.output_map = none) ∧
    (mapLookup p.id s.output_map = none → (response_handler s p).1 = s) := by
  cases hm : mapLookup p.id s.output_map with
  | none =>
    rw [response_handler_of_lookup_none hm]
    simp
  | some cid =>
    refine ⟨?_, ?_⟩
    · simp only [response_handler, mapRemove, hm]
      cases hc : chanSend cid (Except.ok p.response) s.chans with
      | error e =>
        simp only [hc]
        rcases chanSend_error_shape hc with rfl | rfl <;> simp
      | ok cs => simp [hc]
    · intro hn
      cases hn

/-- Witness for C4 at a concrete input: delivering to a fresh broker (no
table entries) is rejected as "Unknown ID" and leaves the state intact. -/
theorem deliver_unknown_id_iff_witness :
    (response_handler (AppState.new : AppState String)
        { response := "pong", id := 5 }).1 = (AppState.new : AppState String) ∧
    (response_handler (AppState.new : AppState String)
        { response := "pong", id := 5 }).2 = .error "Unknown ID" :=
  ⟨(deliver_unknown_id_iff AppState.new { response := "pong", id := 5 }).2 rfl,
   (deliver_unknown_id_iff AppState.new { response := "pong", id := 5 }).1.mpr rfl⟩

/-- C3 counterexample: the relay-receiving (proxy) endpoint pushes a command
and registers its channel but leaves the wake-signal version exactly where
it was (`0`, the fresh broker's version) — no Wake Signal is fired, so the
claim "every operation that pushes onto the Work Queue fires the Wake
Signal" fails at this concrete input. -/
theorem proxy_enqueue_no_wake :
    (proxy_handler_enqueue (AppState.new : AppState String)
        { args := "ping", id := some 7 }).map
      (fun r => (r.1.process_queue, r.1.output_map, r.1.trigger.version)) =
    Except.ok ([{ args := "ping", id := some 7 }], [(7, 0)], 0) := rfl

/-- C3 (amended): the Submission Path fires the Wake Signal after its push
(on success the watch version is bumped by one), but the relay-receiving
proxy endpoint pushes the command and registers its channel without firing
the Wake Signal (the watch channel is left untouched). -/
theorem wake_signal_submission_only {Args : Type} (s : AppState Args) (a : Args)
    (f : Uuid) (c : ToolArguments Args) :
    ((∃ v, (generic_tool_run_submit s a f).2 = Except.ok v) →
      (generic_tool_run_submit s a f).1.trigger.version = s.trigger.version + 1) ∧
    (generic_tool_run_submit s a f).1.process_queue
      = s.process_queue ++ [{ args := a, id := some f }] ∧
    (∀ (s₁ : AppState Args) (id : Uuid) (cid : ChanId),
      proxy_handler_enqueue s c = .ok (s₁, id, cid) →
      s₁.trigger = s.trigger ∧ s₁.process_queue = s.process_queue ++ [c]) := by
  refine ⟨?_, generic_tool_run_submit_queue s a f, ?_⟩
  · intro hok
    obtain ⟨v, hv⟩ := hok
    unfold generic_tool_run_submit at *
    cases hts : trigger_send s.trigger with
    | error e => rw [hts] at hv; cases hv
    | ok w =>
      simp only [hts]
      unfold trigger_send at hts
      split at hts
      · cases hts
      · rw [← Except.ok.inj hts]
  · intro s₁ id cid h
    obtain ⟨-, hq, ht⟩ := proxy_handler_enqueue_eq_ok h
    exact ⟨ht, hq⟩

/-- Witness for the amended C3: on a fresh broker a submission bumps the
wake-signal version to 1 and pushes the command. -/
theorem wake_signal_submission_only_witness :
    (generic_tool_run_submit (AppState.new : AppState String) "ping" 0).1.trigger.version
      = (AppState.new : AppState String).trigger.version + 1 ∧
    (generic_tool_run_submit (AppState.new : AppState String) "ping" 0).1.process_queue
      = (AppState.new : AppState String).process_queue ++ [{ args := "ping", id := some 0 }] :=
  ⟨(wake_signal_submission_only (AppState.new : AppState String) "ping" 0
      { args := "ping", id := some 0 }).1 ⟨(0, 0), rfl⟩,
   (wake_signal_submission_only (AppState.new : AppState String) "ping" 0
      { args := "ping", id := some 0 }).2.1⟩

/-- C7 counterexample: one iteration of the relay loop, after a successful
forward of the queued command (id 3) whose correlation-table entry is
missing, hits the `.remove(&id).unwrap()` and panics — resolution of a
missing entry is not a local no-op failure on this path. -/
theorem relay_resolve_missing_entry_panics :
    dud_proxy_iter
      ({ process_queue := [{ args := "ping", id := some 3 }], output_map := [],
         chans := [], trigger := { version := 0, receivers := 1 } } : AppState String)
      (some (Except.ok "pong")) = DudOutcome.panicked := rfl

/-- C7 (amended): resolving an identifier with no correlation-table entry
through the Result Delivery Endpoint is a local no-op failure — the state is
unchanged and the "Unknown ID" error is reported, never a panic. The relay
loop's resolution step, by contrast, panics on a missing entry after a
successful forward (see the counterexample): there, a missing entry always
yields `panicked`. -/
theorem resolve_missing_entry_policy {Args : Type} (s : AppState Args)
    (p : RunCommandResponse) (h : mapLookup p.id s.output_map = none) :
    response_handler s p = (s, .error "Unknown ID") ∧
    (∀ (entry : ToolArguments Args) (rest : List (ToolArguments Args)) (i : Uuid) (res : Res),
      s.process_queue = entry :: rest → entry.id = some i →
      mapLookup i s.output_map = none →
      dud_proxy_iter s (some res) = DudOutcome.panicked) := by
  refine ⟨response_handler_of_lookup_none h, ?_⟩
  intro entry rest i res hq hid hi
  unfold dud_proxy_iter
  rw [hq]
  simp only [hid, mapRemove, hi]

/-- Witness for the amended C7: a broker holding one queued command and no
table entry rejects a delivery for id 3 without modifying anything, and the
relay loop's resolution step panics on the same missing entry. -/
theorem resolve_missing_entry_policy_witness :
    response_handler
        ({ process_queue := [{ args := "ping", id := some 3 }], output_map := [],
           chans := [], trigger := { version := 0, receivers := 1 } } : AppState String)
        { response := "pong", id := 3 } =
      ({ process_queue := [{ args := "ping", id := some 3 }], output_map := [],
         chans := [], trigger := { version := 0, receivers := 1 } }, .error "Unknown ID") ∧
    dud_proxy_iter
        ({ process_queue := [{ args := "ping", id := some 3 }], output_map := [],
           chans := [], trigger := { version := 0, receivers := 1 } } : AppState String)
        (some (Except.ok "pong")) = DudOutcome.panicked :=
  ⟨(resolve_missing_entry_policy
      ({ process_queue := [{ args := "ping", id := some 3 }], output_map := [],
         chans := [], trigger := { version := 0, receivers := 1 } } : AppState String)
      { response := "pong", id := 3 } rfl).1,
   (resolve_missing_entry_policy
      ({ process_queue := [{ args := "ping", id := some 3 }], output_map := [],
         chans := [], trigger := { version := 0, receivers := 1 } } : AppState String)
      { response := "pong", id := 3 } rfl).2
     { args := "ping", id := some 3 } [] 3 (Except.ok "pong") rfl rfl rfl⟩

theorem reach_trigger_receivers {Args : Type} {s : AppState Args} (h : Reach s) :
    s.trigger.receivers = 1 := by
  induction h with
  | init => rfl
  | submit s a f hr ih => rw [generic_tool_run_submit_trigger_receivers]; exact ih
  | poll s hr ih => rw [request_handler_poll_trigger]; exact ih
  | deliver s p hr ih => rw [response_handler_trigger]; exact ih
  | resume s s₁ id cid r hr he ih => rw [(generic_tool_run_resume_eq_some he).2]; exact ih
  | proxyEnq s s₁ c id cid hr he ih => rw [(proxy_handler_enqueue_eq_ok he).2.2]; exact ih
  | proxyRes s s₁ id cid r hr he ih => rw [(proxy_handler_resume_eq_some he).2]; exact ih
  | dudSent s s₁ net hr he ih => rw [(dud_proxy_iter_sent he).2]; exact ih
  | dudDropped s s₁ net hr he ih => rw [(dud_proxy_iter_dropped he).2]; exact ih
  | forgetStep s id hr ih => exact ih

/-- C10: in every reachable broker state the wake-signal watch channel still
has its permanent receiver (the state's own `waiter` field), so the
Submission Path's `trigger.send(())` succeeds and its "Unable to trigger
send" error branch is unreachable: the submission step always returns the
minted identifier and the fresh channel index. -/
theorem submit_trigger_send_never_fails {Args : Type} (s : AppState Args)
    (h : Reach s) (a : Args) (f : Uuid) :
    1 ≤ s.trigger.receivers ∧
    (generic_tool_run_submit s a f).2 = Except.ok (f, s.chans.length) := by
  have hr := reach_trigger_receivers h
  refine ⟨by rw [hr], ?_⟩
  simp [generic_tool_run_submit, trigger_send, hr]

/-- Witness for C10 on the freshly constructed broker state. -/
theorem submit_trigger_send_never_fails_witness :
    1 ≤ (AppState.new : AppState String).trigger.receivers ∧
    (generic_tool_run_submit (AppState.new : AppState String) "ping" 0).2 =
      Except.ok (0, 0) :=
  submit_trigger_send_never_fails AppState.new Reach.init "ping" 0

/-- C6: Identifier invariant. In every reachable broker state, every command
in the work queue carries a non-empty identifier (the submission path always
mints one before enqueueing), and the relay-receiving endpoint rejects — with
an error and without enqueueing anything — any forwarded command whose
identifier is absent. Correlation-table entries are keyed by `Uuid`, so a
pending entry has an identifier by construction. -/
theorem queue_identifier_invariant {Args : Type} (s : AppState Args) (h : Reach s) :
    (∀ c ∈ s.process_queue, c.id ≠ none) ∧
    (∀ c : ToolArguments Args, c.id = none →
      proxy_handler_enqueue s c = Except.error "Got proxy command with no id") := by
  constructor
  · induction h with
    | init => intro c hc; cases hc
    | submit s a f hr ih =>
      intro c hc
      rw [generic_tool_run_submit_queue] at hc
      rcases List.mem_append.mp hc with hin | hnew
      · exact ih c hin
      · rw [List.mem_singleton] at hnew
        subst hnew
        simp
    | poll s hr ih =>
      intro c hc
      exact ih c (request_handler_poll_queue_mem hc)
    | deliver s p hr ih =>
      intro c hc
      rw [response_handler_queue] at hc
      exact ih c hc
    | resume s s₁ id cid r hr he ih =>
      intro c hc
      rw [(generic_tool_run_resume_eq_some he).1] at hc
      exact ih c hc
    | proxyEnq s s₁ c₀ id cid hr he ih =>
      intro c hc
      obtain ⟨hid, hq, -⟩ := proxy_handler_enqueue_eq_ok he
      rw [hq] at hc
      rcases List.mem_append.mp hc with hin | hnew
      · exact ih c hin
      · rw [List.mem_singleton] at hnew
        subst hnew
        rw [hid]
        simp
    | proxyRes s s₁ id cid r hr he ih =>
      intro c hc
      rw [(proxy_handler_resume_eq_some he).1] at hc
      exact ih c hc
    | dudSent s s₁ net hr he ih =>
      intro c hc
      obtain ⟨⟨e, hq⟩, -⟩ := dud_proxy_iter_sent he
      exact ih c (by rw [hq]; exact List.mem_cons_of_mem e hc)
    | dudDropped s s₁ net hr he ih =>
      intro c hc
      obtain ⟨⟨e, hq⟩, -⟩ := dud_proxy_iter_dropped he
      exact ih c (by rw [hq]; exact List.mem_cons_of_mem e hc)
    | forgetStep s id hr ih => exact ih
  · intro c hc
    unfold proxy_handler_enqueue
    rw [hc]

/-- Witness for C6: the fresh broker state is reachable, its queue commands
(vacuously) all have identifiers, and a forwarded command with no identifier
is rejected there. -/
theorem queue_identifier_invariant_witness :
    proxy_handler_enqueue (AppState.new : AppState String) { args := "ping", id := none } =
      Except.error "Got proxy command with no id" :=
  (queue_identifier_invariant (AppState.new : AppState String) Reach.init).2
    { args := "ping", id := none } rfl

/-- C2: FIFO order. From an empty queue, three successful enqueues — by any
mix of the submission path and the relay-receiving proxy endpoint — leave
the queue holding exactly `[A, B, C]` in enqueue order; the next three
fetch polls return `A`, `B`, `C` in that order, draining the queue. In
general, a successful poll removes exactly the returned command, once, from
the front, and an unsuccessful poll (empty queue) removes nothing. -/
theorem fifo_order {Args : Type} (s s₁ s₂ s₃ : AppState Args)
    (e₁ e₂ e₃ : EnqueueVia Args) (A B C : ToolArguments Args)
    (hq : s.process_queue = [])
    (h₁ : applyEnqueue s e₁ = some (s₁, A))
    (h₂ : applyEnqueue s₁ e₂ = some (s₂, B))
    (h₃ : applyEnqueue s₂ e₃ = some (s₃, C)) :
    s₃.process_queue = [A, B, C] ∧
    ((request_handler_poll s₃).2 = some A ∧
      (request_handler_poll (request_handler_poll s₃).1).2 = some B ∧
      (request_handler_poll (request_handler_poll (request_handler_poll s₃).1).1).2
        = some C ∧
      (request_handler_poll (request_handler_poll
        (request_handler_poll s₃).1).1).1.process_queue = []) ∧
    (∀ (t u : AppState Args) (c : ToolArguments Args),
      request_handler_poll t = (u, some c) → t.process_queue = c :: u.process_queue) ∧
    (∀ t u : AppState Args, request_handler_poll t = (u, none) →
      u = t ∧ t.process_queue = []) := by
  have q₁ := applyEnqueue_eq_some h₁
  have q₂ := applyEnqueue_eq_some h₂
  have q₃ := applyEnqueue_eq_some h₃
  rw [hq] at q₁
  rw [q₁] at q₂
  rw [q₂] at q₃
  simp only [List.nil_append, List.cons_append] at q₁ q₂ q₃
  refine ⟨q₃, ?_, fun t u c h => request_handler_poll_succeeds h,
    fun t u h => request_handler_poll_empty h⟩
  simp [request_handler_poll, q₃]

/-- Witness for C2: a submission of "a", a proxied command "b", and a
submission of "c" on a fresh broker are fetched back in exactly that
order. -/
theorem fifo_order_witness :
    ({ process_queue := [{ args := "a", id := some 0 }, { args := "b", id := some 1 },
         { args := "c", id := some 2 }],
       output_map := [(2, 2), (1, 1), (0, 0)], chans := [Chan.new, Chan.new, Chan.new],
       trigger := { version := 2, receivers := 1 } } : AppState String).process_queue =
      [{ args := "a", id := some 0 }, { args := "b", id := some 1 },
       { args := "c", id := some 2 }] ∧
    ((request_handler_poll
        ({ process_queue := [{ args := "a", id := some 0 }, { args := "b", id := some 1 },
             { args := "c", id := some 2 }],
           output_map := [(2, 2), (1, 1), (0, 0)], chans := [Chan.new, Chan.new, Chan.new],
           trigger := { version := 2, receivers := 1 } } : AppState String)).2 =
        some { args := "a", id := some 0 } ∧
      (request_handler_poll (request_handler_poll
        ({ process_queue := [{ args := "a", id := some 0 }, { args := "b", id := some 1 },
             { args := "c", id := some 2 }],
           output_map := [(2, 2), (1, 1), (0, 0)], chans := [Chan.new, Chan.new, Chan.new],
           trigger := { version := 2, receivers := 1 } } : AppState String)).1).2 =
        some { args := "b", id := some 1 } ∧
      (request_handler_poll (request_handler_poll (request_handler_poll
        ({ process_queue := [{ args := "a", id := some 0 }, { args := "b", id := some 1 },
             { args := "c", id := some 2 }],
           output_map := [(2, 2), (1, 1), (0, 0)], chans := [Chan.new, Chan.new, Chan.new],
           trigger := { version := 2, receivers := 1 } } : AppState String)).1).1).2 =
        some { args := "c", id := some 2 } ∧
      (request_handler_poll (request_handler_poll (request_handler_poll
        ({ process_queue := [{ args := "a", id := some 0 }, { args := "b", id := some 1 },
             { args := "c", id := some 2 }],
           output_map := [(2, 2), (1, 1), (0, 0)], chans := [Chan.new, Chan.new, Chan.new],
           trigger := { version := 2, receivers := 1 } } : AppState String)).1).1).1.process_queue
        = []) :=
  ⟨(fifo_order (AppState.new : AppState String)
      ({ process_queue := [{ args := "a", id := some 0 }], output_map := [(0, 0)],
         chans := [Chan.new], trigger := { version := 1, receivers := 1 } })
      ({ process_queue := [{ args := "a", id := some 0 }, { args := "b", id := some 1 }],
         output_map := [(1, 1), (0, 0)], chans := [Chan.new, Chan.new],
         trigger := { version := 1, receivers := 1 } })
      ({ process_queue := [{ args := "a", id := some 0 }, { args := "b", id := some 1 },
           { args := "c", id := some 2 }],
         output_map := [(2, 2), (1, 1), (0, 0)], chans := [Chan.new, Chan.new, Chan.new],
         trigger := { version := 2, receivers := 1 } })
      (.submit "a" 0) (.proxy { args := "b", id := some 1 }) (.submit "c" 2)
      { args := "a", id := some 0 } { args := "b", id := some 1 }
      { args := "c", id := some 2 } rfl rfl rfl rfl).1,
   (fifo_order (AppState.new : AppState String)
      ({ process_queue := [{ args := "a", id := some 0 }], output_map := [(0, 0)],
         chans := [Chan.new], trigger := { version := 1, receivers := 1 } })
      ({ process_queue := [{ args := "a", id := some 0 }, { args := "b", id := some 1 }],
         output_map := [(1, 1), (0, 0)], chans := [Chan.new, Chan.new],
         trigger := { version := 1, receivers := 1 } })
      ({ process_queue := [{ args := "a", id := some 0 }, { args := "b", id := some 1 },
           { args := "c", id := some 2 }],
         output_map := [(2, 2), (1, 1), (0, 0)], chans := [Chan.new, Chan.new, Chan.new],
         trigger := { version := 2, receivers := 1 } })
      (.submit "a" 0) (.proxy { args := "b", id := some 1 }) (.submit "c" 2)
      { args := "a", id := some 0 } { args := "b", id := some 1 }
      { args := "c", id := some 2 } rfl rfl rfl rfl).2.1⟩

/-- C8: Idempotence of cleanup and resolution. Releasing a table entry
(`forget`, the `remove_entry` cleanup) after the entry is already gone is a
no-op leaving the state unchanged; and for an identifier registered once
(with a deliverable channel), the first delivery through the Result
Delivery Endpoint succeeds while a second delivery for the same identifier
fails with the "Unknown ID" error and changes nothing further. -/
theorem forget_resolve_idempotence {Args : Type} (s t : AppState Args) (id : Uuid)
    (cid : ChanId) (r r' : String) (cs : List Chan)
    (hgone : mapLookup id t.output_map = none)
    (hreg : mapLookup id s.output_map = some cid)
    (hsend : chanSend cid (Except.ok r) s.chans = Except.ok cs) :
    forget t id = t ∧
    response_handler s { response := r, id := id } =
      ({ s with output_map := mapErase id s.output_map, chans := cs }, Except.ok ()) ∧
    response_handler { s with output_map := mapErase id s.output_map, chans := cs }
        { response := r', id := id } =
      ({ s with output_map := mapErase id s.output_map, chans := cs },
        Except.error "Unknown ID") := by
  refine ⟨?_, ?_, ?_⟩
  · unfold forget
    rw [mapErase_of_lookup_none hgone]
  · simp only [response_handler, mapRemove, hreg, hsend]
  · exact response_handler_of_lookup_none (mapLookup_erase_self id s.output_map)

/-- Witness for C8: forgetting id 4 on a fresh broker is a no-op; on a
broker where id 4 maps to a live channel, the first delivery succeeds and
the second one fails with "Unknown ID". -/
theorem forget_resolve_idempotence_witness :
    forget (AppState.new : AppState String) 4 = AppState.new ∧
    response_handler
        ({ process_queue := [], output_map := [(4, 0)], chans := [Chan.new],
           trigger := { version := 0, receivers := 1 } } : AppState String)
        { response := "a", id := 4 } =
      ({ process_queue := [], output_map := mapErase 4 [(4, 0)],
         chans := [{ buf := [Except.ok "a"], sender_alive := false, receiver_alive := true }],
         trigger := { version := 0, receivers := 1 } }, Except.ok ()) ∧
    response_handler
        ({ process_queue := [], output_map := mapErase 4 [(4, 0)],
           chans := [{ buf := [Except.ok "a"], sender_alive := false, receiver_alive := true }],
           trigger := { version := 0, receivers := 1 } } : AppState String)
        { response := "b", id := 4 } =
      ({ process_queue := [], output_map := mapErase 4 [(4, 0)],
         chans := [{ buf := [Except.ok "a"], sender_alive := false, receiver_alive := true }],
         trigger := { version := 0, receivers := 1 } }, Except.error "Unknown ID") :=
  forget_resolve_idempotence
    ({ process_queue := [], output_map := [(4, 0)], chans := [Chan.new],
       trigger := { version := 0, receivers := 1 } } : AppState String)
    (AppState.new : AppState String) 4 0 "a" "b"
    [{ buf := [Except.ok "a"], sender_alive := false, receiver_alive := true }]
    rfl rfl rfl

/-- C9: Every result posted through the Result Delivery Endpoint is wrapped
as a success (`Ok(payload.response)`) before entering the waiter's channel:
the endpoint either leaves the channel store untouched or performs exactly
one send of the success-flavored message. A submission whose channel head is
such a success message resumes with a success-shaped tool result
(`isError = false`). Failure-flavored messages can enter a channel through
the relay loop's response-decoding path, as the final concrete relay
iteration shows. -/
theorem deliver_success_flavored {Args : Type} (s : AppState Args) (p : RunCommandResponse) :
    ((response_handler s p).1.chans = s.chans ∨
      ∃ cid cs, chanSend cid (Except.ok p.response) s.chans = Except.ok cs ∧
        (response_handler s p).1.chans = cs) ∧
    (∀ (id : Uuid) (cid : ChanId) (c : Chan) (r : String) (rest : List Res),
      s.chans[cid]? = some c → c.buf = Except.ok r :: rest →
      generic_tool_run_resume s id cid =
        some ({ s with chans := s.chans.set cid { c with buf := rest },
                       output_map := mapErase id s.output_map },
          Except.ok (CallToolResult.success r))) ∧
    dud_proxy_iter
        ({ process_queue := [{ args := "x", id := some 1 }], output_map := [(1, 0)],
           chans := [Chan.new], trigger := { version := 0, receivers := 1 } } : AppState String)
        (some (Except.error "decode failed")) =
      DudOutcome.sent
        { process_queue := [], output_map := [],
          chans := [{ buf := [Except.error "decode failed"], sender_alive := false,
                      receiver_alive := true }],
          trigger := { version := 0, receivers := 1 } } := by
  refine ⟨?_, ?_, rfl⟩
  · cases hm : mapRemove p.id s.output_map with
    | none =>
      have hne : response_handler s p = (s, .error "Unknown ID") := by
        unfold response_handler
        rw [hm]
      rw [hne]
      exact Or.inl rfl
    | some v =>
      obtain ⟨cid, m⟩ := v
      cases hc : chanSend cid (Except.ok p.response) s.chans with
      | error e =>
        refine Or.inl ?_
        unfold response_handler
        rw [hm]
        simp only [hc]
      | ok cs =>
        refine Or.inr ⟨cid, cs, hc, ?_⟩
        unfold response_handler
        rw [hm]
        simp only [hc]
  · intro id cid c r rest hcs hbuf
    unfold generic_tool_run_resume chanRecv
    simp only [hcs, hbuf]

/-- Witness for C9: a submission whose channel holds the delivered success
message `Ok "pong"` resumes with the success tool result. -/
theorem deliver_success_flavored_witness :
    generic_tool_run_resume
        ({ process_queue := [],
           output_map := [(9, 0)],
           chans := [{ buf := [Except.ok "pong"], sender_alive := false,
                       receiver_alive := true }],
           trigger := { version := 1, receivers := 1 } } : AppState String) 9 0 =
      some ({ process_queue := [], output_map := mapErase 9 [(9, 0)],
              chans := [{ buf := [], sender_alive := false, receiver_alive := true }],
              trigger := { version := 1, receivers := 1 } },
        Except.ok (CallToolResult.success "pong")) :=
  (deliver_success_flavored
      ({ process_queue := [],
         output_map := [(9, 0)],
         chans := [{ buf := [Except.ok "pong"], sender_alive := false,
                     receiver_alive := true }],
         trigger := { version := 1, receivers := 1 } } : AppState String)
      { response := "", id := 0 }).2.1 9 0
    { buf := [Except.ok "pong"], sender_alive := false, receiver_alive := true }
    "pong" [] rfl rfl
